import Mathlib

/-!
# Verification of the road-density-near-streams tool

Shallow embedding of `src/tool/roaddensity.py`
(`CalculateRoadDensityNearStreamsTool`) and `src/tool/MapSession.py`
(`MapSession.get_map_scale`).

Modelling conventions:
* The proprietary GIS engine works on vector geometries; we model a
  geometry as a finite list of cells of the integer grid `Int × Int`,
  intersection as clipping to the cells of the other geometry, the
  buffered region by its membership predicate (distance at most `d`
  from some stream cell, Chebyshev metric), and `SHAPE@LENGTH` /
  `SHAPE@AREA` of such a rasterised feature as its cell count.  The
  claims proved over this model only use that intersection is clipping
  and that length is additive and zero on the empty geometry.
* Floating point numbers in the Python/pandas code are modelled as
  exact rationals (`Rat`).
* Pandas dataframes are modelled as lists of typed rows; `pivot_table`
  with `aggfunc="sum"` and `fillna(0)` becomes a filtered sum, and the
  outer merge becomes iteration over the deduplicated union of keys.
* `run` is additionally given a trace semantics: the list of the
  pipeline calls and emitted artifacts, in program order.
-/

namespace RoadDensity

/-! ## Discrete geometry model for the arcpy operations -/

/-- A cell of the discrete plane. -/
abbrev Point := Int × Int

/-- Chebyshev distance between two cells, used as the metric for the
stream buffer. -/
def chebDist (p q : Point) : Nat :=
  max (p.1 - q.1).natAbs (p.2 - q.2).natAbs

/-- A stream feature: just a geometry. -/
structure StreamFeature where
  geom : List Point
deriving DecidableEq, Repr

/-- A watershed feature: a key value (the `in_watershed_id` field) and a
geometry. -/
structure WatershedFeature where
  key : String
  geom : List Point
deriving DecidableEq, Repr

/-- A road feature: just a geometry. -/
structure RoadFeature where
  geom : List Point
deriving DecidableEq, Repr

/-- A road feature after `add_constant_field` added the `ROAD_TYPE`
tag (`"Pre-Development"` or `"Proposed"`). -/
structure TaggedRoad where
  road_type : String
  geom : List Point
deriving DecidableEq, Repr

/-- A feature of the final `intersected_roads_watershed` feature class:
a road piece carrying the watershed key and the `ROAD_TYPE` tag. -/
structure ResultFeature where
  key : String
  road_type : String
  geom : List Point
deriving DecidableEq, Repr

/-- Two geometries intersect when they share a cell
(`SelectLayerByLocation` with `overlap_type="INTERSECT"`). -/
def intersectsGeom (g h : List Point) : Bool :=
  g.any fun p => h.contains p

/-- `arcpy.SelectLayerByLocation_management(..., overlap_type="INTERSECT",
select_features=watersheds, selection_type="NEW_SELECTION",
invert_spatial_relationship="FALSE")` (lines 187-191): keep exactly the
streams that intersect some watershed. -/
def selectStreamsByLocation (streams : List StreamFeature)
    (watersheds : List WatershedFeature) : List StreamFeature :=
  streams.filter fun s => watersheds.any fun w => intersectsGeom s.geom w.geom

/-- Membership in the buffer produced by `arcpy.Buffer_analysis` with
`line_side="FULL"` and `dissolve_option="ALL"` (lines 193-198): the
dissolved region of all cells within distance `d` of some cell of some
selected stream. -/
def inStreamBuffer (d : Nat) (streams : List StreamFeature) (p : Point) : Bool :=
  streams.any fun s => s.geom.any fun q => chebDist p q ≤ d

/-- A row of a generic attribute table, for `add_constant_field`. -/
structure Row where
  fields : List (String × String)
deriving DecidableEq, Repr

/-- `add_constant_field` (lines 60-77): `AddField_management` adds the
field and the update cursor writes `field_value` into it on every row. -/
def add_constant_field (table : List Row) (field_name field_value : String) :
    List Row :=
  table.map fun r => Row.mk (r.fields ++ [(field_name, field_value)])

/-- `run_spatial_analysis` (roaddensity.py lines 172-233): select the
streams intersecting the watersheds, buffer them, tag and merge the two
road inputs, intersect the merged roads with the buffer and then with
the watersheds.  `arcpy.Intersect_analysis` clips each feature of the
first input to the second, keeps only nonempty results and attaches
the attributes of both inputs. -/
def run_spatial_analysis (in_streams : List StreamFeature)
    (in_watershed : List WatershedFeature)
    (in_roads in_proposed_roads : List RoadFeature)
    (in_distance : Nat) : List ResultFeature :=
  let streams_layer := selectStreamsByLocation in_streams in_watershed
  let original_roads := in_roads.map fun r =>
    TaggedRoad.mk "Pre-Development" r.geom
  let proposed_roads := in_proposed_roads.map fun r =>
    TaggedRoad.mk "Proposed" r.geom
  let roads_combined := original_roads ++ proposed_roads
  let intersected_streams_roads :=
    (roads_combined.map fun r =>
      TaggedRoad.mk r.road_type
        (r.geom.filter (inStreamBuffer in_distance streams_layer))).filter
      fun r => !r.geom.isEmpty
  (intersected_streams_roads.flatMap fun r =>
    in_watershed.map fun w =>
      ResultFeature.mk w.key r.road_type
        (r.geom.filter fun p => w.geom.contains p)).filter
    fun f => !f.geom.isEmpty

/-! ## Dataframe model for `run_summary_analysis` -/

/-- A row of the dataframe read from the spatial result by
`table_to_dataframe(table=spatial_result,
field_names=[key_field, "ROAD_TYPE", "SHAPE@LENGTH"])`. -/
structure RoadRecord where
  key : String
  road_type : String
  length : Rat
deriving DecidableEq, Repr

/-- The cursor extraction of the key, `ROAD_TYPE` and `SHAPE@LENGTH`
columns from the spatial result; the length of a rasterised feature is
its cell count. -/
def table_to_dataframe_roads (spatial_result : List ResultFeature) :
    List RoadRecord :=
  spatial_result.map fun f => RoadRecord.mk f.key f.road_type (f.geom.length : Rat)

/-- The cell of the pivot table
`roads_df.pivot_table(index=key_field, columns="ROAD_TYPE",
values="SHAPE@LENGTH", aggfunc="sum").fillna(0)` for a given key and
road type: the sum of the lengths of the matching records (0 when there
are none, by `fillna(0)` / the outer-merge `fillna(0)`). -/
def pivotLength (roads_df : List RoadRecord) (k rt : String) : Rat :=
  ((roads_df.filter fun r => r.key == k && r.road_type == rt).map
    fun r => r.length).sum

/-- The cell of `watersheds_df.groupby([key_field]).sum()` for a given
key: the summed `SHAPE@AREA` of the watershed polygons with that key
(0 after the outer-merge `fillna(0)` when the key is absent). -/
def groupedArea (watersheds_df : List (String × Rat)) (k : String) : Rat :=
  ((watersheds_df.filter fun w => w.1 == k).map fun w => w.2).sum

/-- A row of the summary dataframe `newdf` after all the column
assignments of roaddensity.py lines 268-274. -/
structure SummaryRow where
  key : String
  shapeArea : Rat
  preDevelopment : Rat
  proposed : Rat
  total_road_km : Rat
  proposed_road_length : Rat
  existing_road_length : Rat
  total_road_length : Rat
  watershed_area : Rat
  future_road_density : Rat
  original_road_density : Rat
deriving DecidableEq, Repr

/-- The row of `newdf` for one key of the outer merge, with the derived
columns computed exactly as in roaddensity.py lines 268-274. -/
def summaryRow (roads_df : List RoadRecord)
    (watersheds_df : List (String × Rat)) (k : String) : SummaryRow :=
  let pre := pivotLength roads_df k "Pre-Development"
  let prop := pivotLength roads_df k "Proposed"
  let area := groupedArea watersheds_df k
  let proposed_road_length := prop / 1000
  let existing_road_length := pre / 1000
  let total_road_length := existing_road_length + proposed_road_length
  let watershed_area := area / 1000000
  { key := k
    shapeArea := area
    preDevelopment := pre
    proposed := prop
    total_road_km := (pre + prop) / 1000
    proposed_road_length := proposed_road_length
    existing_road_length := existing_road_length
    total_road_length := total_road_length
    watershed_area := watershed_area
    future_road_density := total_road_length / watershed_area
    original_road_density := existing_road_length / watershed_area }

/-- `run_summary_analysis` (roaddensity.py lines 235-276) on the
extracted dataframes.  The pivot table only has a column for a
`ROAD_TYPE` value that occurs in `roads_df`, so the column accesses
`newdf['Pre-Development']` and `newdf['Proposed']` on line 268 raise
`KeyError` (modelled as `none`) unless both values occur.  Otherwise
the outer merge iterates over the union of the watershed keys and the
pivot keys with absent cells filled with 0. -/
def run_summary_analysis (roads_df : List RoadRecord)
    (watersheds_df : List (String × Rat)) : Option (List SummaryRow) :=
  if (roads_df.any fun r => r.road_type == "Pre-Development") &&
     (roads_df.any fun r => r.road_type == "Proposed") then
    let keys := (watersheds_df.map Prod.fst ++ roads_df.map RoadRecord.key).dedup
    some (keys.map (summaryRow roads_df watersheds_df))
  else
    none

/-! ## `simple_report` (roaddensity.py lines 303-327) -/

/-- The columns of the result dataframe that `simple_report` reads. -/
structure ReportRow where
  key : String
  original_road_density : Rat
  future_road_density : Rat
deriving DecidableEq, Repr

/-- Line 310: the `change_in_density` column is the absolute value of
`original_road_density` minus `future_road_density`; each row is paired
with its change value. -/
def addChangeColumn (df : List ReportRow) : List (ReportRow × Rat) :=
  df.map fun r => (r, |r.original_road_density - r.future_road_density|)

/-- Lines 310-317: add the change column, sort by it in descending
order, project to the four reported columns and keep the first 20
tuples (the slice of `values` up to 20). -/
def simple_report_values (df : List ReportRow) :
    List (String × Rat × Rat × Rat) :=
  ((((addChangeColumn df).mergeSort fun a b => decide (b.2 ≤ a.2)).map fun rc =>
    (rc.1.key, rc.1.original_road_density, rc.1.future_road_density, rc.2)).take 20)

/-- Left-justify a string to a given width (Python format spec `<`). -/
def ljust (s : String) (n : Nat) : String :=
  s ++ String.mk (List.replicate (n - s.length) ' ')

/-- Round a rational to the nearest integer, ties to even (the rounding
used by Python fixed-point formatting). -/
def roundHalfEven (q : Rat) : Int :=
  let f := ⌊q⌋
  let frac := q - f
  if frac < 1/2 then f
  else if 1/2 < frac then f + 1
  else if f % 2 = 0 then f else f + 1

/-- Python fixed-point formatting with 6 decimal places. -/
def fixed6 (q : Rat) : String :=
  let n := roundHalfEven (q * 1000000)
  let sign := if n < 0 then "-" else ""
  let a := n.natAbs
  let fstr := toString (a % 1000000)
  sign ++ toString (a / 1000000) ++ "." ++
    String.mk (List.replicate (6 - fstr.length) '0') ++ fstr

/-- Line 320: the header line, with the key field name left-justified
to width 27 and the three captions to width 8, wrapped in BOL tags. -/
def reportHeader (key_field : String) : String :=
  "<BOL>" ++ ljust key_field 27 ++ " " ++ ljust "Exiting" 8 ++ " " ++
    ljust "Future" 8 ++ " " ++ ljust "Change" 8 ++ "</BOL>"

/-- Line 322: one data line; the key is truncated to 27 characters and
the three densities printed with 6 decimal places. -/
def reportLine (v : String × Rat × Rat × Rat) : String :=
  v.1.take 27 ++ " " ++ fixed6 v.2.1 ++ " " ++ fixed6 v.2.2.1 ++ " " ++
    fixed6 v.2.2.2

/-- `simple_report` (lines 303-327): when there is at least one value
tuple, the header line followed by the data lines joined with newlines;
otherwise the fixed message. -/
def simple_report (key_field : String) (df : List ReportRow) : String :=
  let values := simple_report_values df
  if values.length > 0 then
    String.intercalate "\n" (reportHeader key_field :: values.map reportLine)
  else
    "Unable to find assessment data"

/-! ## Trace model for `run` (roaddensity.py lines 377-411) -/

/-- The pipeline calls and artifact emissions performed by `run`, with
the data relevant to the claims. -/
inductive RunEvent where
  | createFileGDB (folder name : String)
  | spatialAnalysis
  | summaryAnalysis
  | exportResultsTable (gdb table : String) (schema : List (String × String))
  | copyFeatures (dest : String)
  | joinField (table join_table : String)
  | generatePdfMxd (pdfPath mxdPath : String)
deriving DecidableEq, Repr

/-- The field list created by `create_result_table` (lines 99-127): the
watershed key field definition followed by the six DOUBLE result
fields, in source order. -/
def create_result_table_fields (key_field_def : String × String) :
    List (String × String) :=
  [key_field_def,
   ("watershed_area", "DOUBLE"),
   ("proposed_road_length", "DOUBLE"),
   ("existing_road_length", "DOUBLE"),
   ("total_road_length", "DOUBLE"),
   ("original_road_density", "DOUBLE"),
   ("future_road_density", "DOUBLE")]

/-- The trace of `run` (lines 377-411): create `results.gdb` when it
does not exist, run the spatial analysis, summarise, export the Results
table (via `export_results_table` / `create_result_table`), copy the
watersheds to `result_polygons`, join the results onto them, and write
`result.pdf` and `result.mxd` (via `generate_pdf_mxd`, lines 372-375). -/
def run_trace (out_folder : String) (key_field_def : String × String)
    (gdbExists : Bool) : List RunEvent :=
  (if gdbExists then [] else [RunEvent.createFileGDB out_folder "results.gdb"]) ++
  [RunEvent.spatialAnalysis,
   RunEvent.summaryAnalysis,
   RunEvent.exportResultsTable (out_folder ++ "/results.gdb") "Results"
     (create_result_table_fields key_field_def),
   RunEvent.copyFeatures (out_folder ++ "/results.gdb/result_polygons"),
   RunEvent.joinField (out_folder ++ "/results.gdb/result_polygons")
     (out_folder ++ "/results.gdb/Results"),
   RunEvent.generatePdfMxd (out_folder ++ "/result.pdf")
     (out_folder ++ "/result.mxd")]

/-- The four pipeline stages named by the spec. -/
inductive Stage where
  | spatial
  | summary
  | export
  | report
deriving DecidableEq, Repr

/-- Which pipeline stage, if any, an event belongs to. -/
def stageOf : RunEvent → Option Stage
  | RunEvent.spatialAnalysis => some Stage.spatial
  | RunEvent.summaryAnalysis => some Stage.summary
  | RunEvent.exportResultsTable _ _ _ => some Stage.export
  | RunEvent.generatePdfMxd _ _ => some Stage.report
  | _ => none

/-! ## `MapSession.get_map_scale` (MapSession.py lines 67-76) -/

/-- The `scaleround` dictionary of line 72, keyed by the decimal digit
count of the integer part of the scale; a missing key is a Python
`KeyError`, modelled as `none`. -/
def scaleround : Nat → Option Int
  | 9 => some 1000000
  | 8 => some 250000
  | 7 => some 100000
  | 6 => some 5000
  | 5 => some 2500
  | 4 => some 250
  | 3 => some 25
  | 2 => some 5
  | 1 => some 1
  | _ => none

/-- The number of decimal digits of a natural number, as computed by
`len(str(n))` on line 73 (one digit for 0). -/
def decimalDigits (n : Nat) : Nat :=
  if n < 10 then 1 else decimalDigits (n / 10) + 1
decreasing_by
  exact Nat.div_lt_self (by omega) (by omega)

/-- `get_map_scale` (lines 67-76) in exact arithmetic:
`int(math.ceil(current_scale / scaleround[clen])) * scaleround[clen]`
where `clen = len(str(int(current_scale)))`; a missing dictionary key
raises `KeyError` (`none`). -/
def get_map_scale (current_scale : Rat) : Option Int :=
  match scaleround (decimalDigits (⌊current_scale⌋).toNat) with
  | none => none
  | some r => some (⌈current_scale / (r : Rat)⌉ * r)

/-! ## Concrete inputs used by the witnesses -/

/-- A concrete two-record road dataframe used by the witnesses. -/
def wRoads : List RoadRecord :=
  [RoadRecord.mk "A" "Pre-Development" 1000, RoadRecord.mk "A" "Proposed" 2000]

/-- A concrete one-row watershed dataframe used by the witnesses. -/
def wWs : List (String × Rat) := [("A", (2000000 : Rat))]

/-- A concrete one-stream input used by the witnesses. -/
def wStreams : List StreamFeature := [StreamFeature.mk [(0, 0)]]

/-- A concrete one-watershed input used by the witnesses. -/
def wWatersheds : List WatershedFeature := [WatershedFeature.mk "W" [(0, 0)]]

/-- A concrete road at the stream, used by the witnesses. -/
def wRoad0 : RoadFeature := RoadFeature.mk [(0, 0)]

/-- A concrete road far away from the stream, used by the witnesses. -/
def wRoadFar : RoadFeature := RoadFeature.mk [(9, 9)]

end RoadDensity

namespace RoadDensity

/-! ## Facts about the summary rows -/

theorem summaryRow_key (roads_df : List RoadRecord)
    (watersheds_df : List (String × Rat)) (k : String) :
    (summaryRow roads_df watersheds_df k).key = k := rfl

theorem summaryRow_original_eq (roads_df : List RoadRecord)
    (watersheds_df : List (String × Rat)) (k : String) :
    (summaryRow roads_df watersheds_df k).original_road_density =
      (summaryRow roads_df watersheds_df k).existing_road_length /
        (summaryRow roads_df watersheds_df k).watershed_area := rfl

theorem summaryRow_future_eq (roads_df : List RoadRecord)
    (watersheds_df : List (String × Rat)) (k : String) :
    (summaryRow roads_df watersheds_df k).future_road_density =
      ((summaryRow roads_df watersheds_df k).existing_road_length +
        (summaryRow roads_df watersheds_df k).proposed_road_length) /
        (summaryRow roads_df watersheds_df k).watershed_area := rfl

theorem mem_run_summary_analysis {roads_df : List RoadRecord}
    {watersheds_df : List (String × Rat)} {rows : List SummaryRow}
    (h : run_summary_analysis roads_df watersheds_df = some rows)
    {row : SummaryRow} (hrow : row ∈ rows) :
    row = summaryRow roads_df watersheds_df row.key := by
  unfold run_summary_analysis at h
  split at h
  · cases h
    obtain ⟨k, _, rfl⟩ := List.mem_map.mp hrow
    rfl
  · cases h

/-- Claim C1: for every row of the summary dataframe produced by
`run_summary_analysis` with positive `watershed_area`,
`original_road_density` is the aggregated pre-development road length
inside the stream buffer divided by the aggregated watershed area, and
`future_road_density` is the aggregated pre-development plus proposed
length divided by the area, lengths converted to kilometres by
dividing by 1000 and areas to square kilometres by dividing by
1000000. -/
theorem summary_densities_correct {roads_df : List RoadRecord}
    {watersheds_df : List (String × Rat)} {rows : List SummaryRow}
    (h : run_summary_analysis roads_df watersheds_df = some rows)
    {row : SummaryRow} (hrow : row ∈ rows)
    (hpos : 0 < row.watershed_area) :
    row.original_road_density =
      (pivotLength roads_df row.key "Pre-Development" / 1000) /
        (groupedArea watersheds_df row.key / 1000000) ∧
    row.future_road_density =
      ((pivotLength roads_df row.key "Pre-Development" +
        pivotLength roads_df row.key "Proposed") / 1000) /
        (groupedArea watersheds_df row.key / 1000000) := by
  have hr := mem_run_summary_analysis h hrow
  constructor
  · conv_lhs => rw [hr]
    rfl
  · conv_lhs => rw [hr]
    show (pivotLength roads_df row.key "Pre-Development" / 1000 +
        pivotLength roads_df row.key "Proposed" / 1000) /
        (groupedArea watersheds_df row.key / 1000000) = _
    rw [div_add_div_same]

/-- Witness for `summary_densities_correct` at a concrete input. -/
theorem summary_densities_correct_witness :
    0 < (summaryRow wRoads wWs "A").watershed_area ∧
    ((summaryRow wRoads wWs "A").original_road_density =
      (pivotLength wRoads "A" "Pre-Development" / 1000) /
        (groupedArea wWs "A" / 1000000) ∧
     (summaryRow wRoads wWs "A").future_road_density =
      ((pivotLength wRoads "A" "Pre-Development" +
        pivotLength wRoads "A" "Proposed") / 1000) /
        (groupedArea wWs "A" / 1000000)) := by
  have h : run_summary_analysis wRoads wWs =
      some [summaryRow wRoads wWs "A"] := rfl
  have hpos : 0 < (summaryRow wRoads wWs "A").watershed_area := by
    show (0 : Rat) < (2000000 + 0) / 1000000
    norm_num
  exact ⟨hpos,
    summary_densities_correct h (List.mem_singleton.mpr rfl) hpos⟩

/-- Claim C7: for a summary row with positive `watershed_area` and
non-negative aggregated road lengths, the future density is at least
the original density: adding the proposed network never decreases the
reported density. -/
theorem future_density_ge_original {roads_df : List RoadRecord}
    {watersheds_df : List (String × Rat)} {rows : List SummaryRow}
    (h : run_summary_analysis roads_df watersheds_df = some rows)
    {row : SummaryRow} (hrow : row ∈ rows)
    (hpos : 0 < row.watershed_area)
    (hex : 0 ≤ row.existing_road_length)
    (hprop : 0 ≤ row.proposed_road_length) :
    row.original_road_density ≤ row.future_road_density := by
  have hr := mem_run_summary_analysis h hrow
  rw [hr] at hpos hex hprop ⊢
  rw [summaryRow_original_eq, summaryRow_future_eq]
  exact (div_le_div_iff_of_pos_right hpos).mpr (le_add_of_nonneg_right hprop)

/-- Witness for `future_density_ge_original` at a concrete input. -/
theorem future_density_ge_original_witness :
    0 < (summaryRow wRoads wWs "A").watershed_area ∧
    0 ≤ (summaryRow wRoads wWs "A").existing_road_length ∧
    0 ≤ (summaryRow wRoads wWs "A").proposed_road_length ∧
    (summaryRow wRoads wWs "A").original_road_density ≤
      (summaryRow wRoads wWs "A").future_road_density := by
  have h : run_summary_analysis wRoads wWs =
      some [summaryRow wRoads wWs "A"] := rfl
  have hpos : 0 < (summaryRow wRoads wWs "A").watershed_area := by
    show (0 : Rat) < (2000000 + 0) / 1000000
    norm_num
  have hex : 0 ≤ (summaryRow wRoads wWs "A").existing_road_length := by
    show (0 : Rat) ≤ (1000 + 0) / 1000
    norm_num
  have hprop : 0 ≤ (summaryRow wRoads wWs "A").proposed_road_length := by
    show (0 : Rat) ≤ (2000 + 0) / 1000
    norm_num
  exact ⟨hpos, hex, hprop,
    future_density_ge_original h (List.mem_singleton.mpr rfl) hpos hex hprop⟩

/-! ## Facts about `simple_report` -/

/-- Claim C3: every tuple reported by `simple_report` carries, as its
change-in-density component, exactly the absolute value of that row's
original density minus its future density. -/
theorem report_change_is_abs_diff {df : List ReportRow}
    {v : String × Rat × Rat × Rat} (hv : v ∈ simple_report_values df) :
    v.2.2.2 = |v.2.1 - v.2.2.1| := by
  unfold simple_report_values at hv
  have hv' := List.mem_of_mem_take hv
  obtain ⟨rc, hrc, rfl⟩ := List.mem_map.mp hv'
  have hrc' : rc ∈ addChangeColumn df :=
    (List.mergeSort_perm (addChangeColumn df) _).mem_iff.mp hrc
  obtain ⟨r, _, rfl⟩ := List.mem_map.mp hrc'
  rfl

/-- Witness for `report_change_is_abs_diff` at a concrete input. -/
theorem report_change_is_abs_diff_witness :
    ("A", (1 : Rat), 3, |(1 : Rat) - 3|) ∈
      simple_report_values [ReportRow.mk "A" 1 3] ∧
    |(1 : Rat) - 3| = |(1 : Rat) - 3| := by
  have hm : ("A", (1 : Rat), 3, |(1 : Rat) - 3|) ∈
      simple_report_values [ReportRow.mk "A" 1 3] := by
    simp [simple_report_values, addChangeColumn]
  exact ⟨hm, report_change_is_abs_diff hm⟩

/-- Claim C8: `simple_report` reports at most 20 tuples, in descending
order of change in density, and on an empty result dataframe it
returns the fixed message. -/
theorem simple_report_shape (key_field : String) (df : List ReportRow) :
    (simple_report_values df).length ≤ 20 ∧
    (simple_report_values df).Pairwise (fun a b => b.2.2.2 ≤ a.2.2.2) ∧
    (df = [] → simple_report key_field df = "Unable to find assessment data") := by
  refine ⟨?_, ?_, ?_⟩
  · unfold simple_report_values
    exact (List.length_take _ _).trans_le (Nat.min_le_left _ _)
  · unfold simple_report_values
    have hs : ((addChangeColumn df).mergeSort
        fun a b => decide (b.2 ≤ a.2)).Pairwise
        (fun a b => decide (b.2 ≤ a.2)) := by
      refine List.sorted_mergeSort ?_ ?_ _
      · intro a b c hab hbc
        simp only [decide_eq_true_eq] at hab hbc ⊢
        exact hbc.trans hab
      · intro a b
        simp only [Bool.or_eq_true, decide_eq_true_eq]
        exact le_total b.2 a.2
    have hmap : (((addChangeColumn df).mergeSort
        fun a b => decide (b.2 ≤ a.2)).map fun rc =>
          (rc.1.key, rc.1.original_road_density,
           rc.1.future_road_density, rc.2)).Pairwise
        (fun a b => b.2.2.2 ≤ a.2.2.2) := by
      rw [List.pairwise_map]
      exact hs.imp fun h => by simpa using h
    exact hmap.sublist (List.take_sublist _ _)
  · intro hdf
    subst hdf
    simp [simple_report, simple_report_values, addChangeColumn]

/-- Witness for `simple_report_shape` at a concrete input. -/
theorem simple_report_shape_witness :
    (simple_report_values ([] : List ReportRow)).length ≤ 20 ∧
    simple_report "WS" ([] : List ReportRow) =
      "Unable to find assessment data" := by
  have h := simple_report_shape "WS" []
  exact ⟨h.1, h.2.2 rfl⟩

/-! ## Facts about `run_spatial_analysis` -/

theorem clip_eq_nil_of_outside {d : Nat} {sel : List StreamFeature}
    {g : List Point} (h : ∀ p ∈ g, inStreamBuffer d sel p = false) :
    g.filter (inStreamBuffer d sel) = [] :=
  List.filter_eq_nil_iff.mpr fun p hp => by rw [h p hp]; exact Bool.false_ne_true

theorem spatial_insert_outside_original
    (s : List StreamFeature) (w : List WatershedFeature)
    (roads₁ roads₂ prop : List RoadFeature) (d : Nat) (r : RoadFeature)
    (hout : ∀ p ∈ r.geom,
      inStreamBuffer d (selectStreamsByLocation s w) p = false) :
    run_spatial_analysis s w (roads₁ ++ r :: roads₂) prop d =
      run_spatial_analysis s w (roads₁ ++ roads₂) prop d := by
  have hclip := clip_eq_nil_of_outside hout
  unfold run_spatial_analysis
  simp [List.map_append, List.filter_append, List.flatMap_append,
    List.filter_cons, hclip]

theorem spatial_insert_outside_proposed
    (s : List StreamFeature) (w : List WatershedFeature)
    (roads prop₁ prop₂ : List RoadFeature) (d : Nat) (r : RoadFeature)
    (hout : ∀ p ∈ r.geom,
      inStreamBuffer d (selectStreamsByLocation s w) p = false) :
    run_spatial_analysis s w roads (prop₁ ++ r :: prop₂) d =
      run_spatial_analysis s w roads (prop₁ ++ prop₂) d := by
  have hclip := clip_eq_nil_of_outside hout
  unfold run_spatial_analysis
  simp [List.map_append, List.filter_append, List.flatMap_append,
    List.filter_cons, hclip]

/-- Claim C2: `run_spatial_analysis` keeps exactly the streams that
intersect the watersheds, and clips the merged road network to the
buffer around them: a road feature lying entirely outside the buffered
region contributes nothing to the spatial result — inserting it into
either road input leaves the result unchanged, so it adds zero length
to every watershed's totals. -/
theorem buffer_confines_road_length
    (s : List StreamFeature) (w : List WatershedFeature)
    (roads₁ roads₂ prop₁ prop₂ : List RoadFeature) (d : Nat) (r : RoadFeature)
    (hout : ∀ p ∈ r.geom,
      inStreamBuffer d (selectStreamsByLocation s w) p = false) :
    (∀ st : StreamFeature, st ∈ selectStreamsByLocation s w ↔
      st ∈ s ∧ (w.any fun ws => intersectsGeom st.geom ws.geom) = true) ∧
    run_spatial_analysis s w (roads₁ ++ r :: roads₂) (prop₁ ++ prop₂) d =
      run_spatial_analysis s w (roads₁ ++ roads₂) (prop₁ ++ prop₂) d ∧
    run_spatial_analysis s w (roads₁ ++ roads₂) (prop₁ ++ r :: prop₂) d =
      run_spatial_analysis s w (roads₁ ++ roads₂) (prop₁ ++ prop₂) d :=
  ⟨fun _ => List.mem_filter,
   spatial_insert_outside_original s w roads₁ roads₂ (prop₁ ++ prop₂) d r hout,
   spatial_insert_outside_proposed s w (roads₁ ++ roads₂) prop₁ prop₂ d r hout⟩

/-- Witness for `buffer_confines_road_length` at a concrete input. -/
theorem buffer_confines_road_length_witness :
    (∀ p ∈ wRoadFar.geom,
      inStreamBuffer 1 (selectStreamsByLocation wStreams wWatersheds) p = false) ∧
    run_spatial_analysis wStreams wWatersheds ([wRoad0] ++ wRoadFar :: [])
        ([] ++ []) 1 =
      run_spatial_analysis wStreams wWatersheds ([wRoad0] ++ []) ([] ++ []) 1 := by
  have hout : ∀ p ∈ wRoadFar.geom,
      inStreamBuffer 1 (selectStreamsByLocation wStreams wWatersheds) p = false := by
    decide
  exact ⟨hout,
    (buffer_confines_road_length wStreams wWatersheds [wRoad0] [] [] [] 1
      wRoadFar hout).2.1⟩

theorem run_spatial_analysis_append (s : List StreamFeature)
    (w : List WatershedFeature) (roads prop : List RoadFeature) (d : Nat) :
    run_spatial_analysis s w roads prop d =
      run_spatial_analysis s w roads [] d ++
        run_spatial_analysis s w [] prop d := by
  unfold run_spatial_analysis
  simp [List.filter_append, List.flatMap_append]

theorem road_type_of_mem_original {s : List StreamFeature}
    {w : List WatershedFeature} {roads : List RoadFeature} {d : Nat}
    {f : ResultFeature} (hf : f ∈ run_spatial_analysis s w roads [] d) :
    f.road_type = "Pre-Development" := by
  unfold run_spatial_analysis at hf
  simp only [List.map_nil, List.append_nil, List.mem_filter,
    List.mem_flatMap, List.mem_map, List.map_map] at hf
  obtain ⟨⟨tr, ⟨⟨p, _, rfl⟩, -⟩, ⟨ws, _, rfl⟩⟩, -⟩ := hf
  rfl

theorem road_type_of_mem_proposed {s : List StreamFeature}
    {w : List WatershedFeature} {prop : List RoadFeature} {d : Nat}
    {f : ResultFeature} (hf : f ∈ run_spatial_analysis s w [] prop d) :
    f.road_type = "Proposed" := by
  unfold run_spatial_analysis at hf
  simp only [List.map_nil, List.nil_append, List.mem_filter,
    List.mem_flatMap, List.mem_map, List.map_map] at hf
  obtain ⟨⟨tr, ⟨⟨p, _, rfl⟩, -⟩, ⟨ws, _, rfl⟩⟩, -⟩ := hf
  rfl

theorem pivotLength_append (a b : List RoadRecord) (k rt : String) :
    pivotLength (a ++ b) k rt = pivotLength a k rt + pivotLength b k rt := by
  unfold pivotLength
  simp [List.filter_append]

theorem pivotLength_eq_zero_of_road_type {recs : List RoadRecord}
    {rt : String} (h : ∀ rec ∈ recs, rec.road_type ≠ rt) (k : String) :
    pivotLength recs k rt = 0 := by
  unfold pivotLength
  have : recs.filter (fun r => r.key == k && r.road_type == rt) = [] :=
    List.filter_eq_nil_iff.mpr fun rec hrec => by
      simp [h rec hrec]
  simp [this]

/-- Claim C5: tagging separates the two networks.  `add_constant_field`
writes the constant value into the field on every row of its table, and
the per-watershed pivot aggregation of the spatial result counts, under
`"Pre-Development"`, only length originating from the existing-roads
input, and under `"Proposed"`, only length originating from the
proposed-roads input. -/
theorem tagging_separates_networks :
    (∀ (t : List Row) (fn fv : String) (row : Row),
      row ∈ add_constant_field t fn fv → (fn, fv) ∈ row.fields) ∧
    (∀ (s : List StreamFeature) (w : List WatershedFeature)
       (roads prop : List RoadFeature) (d : Nat) (k : String),
      pivotLength (table_to_dataframe_roads
          (run_spatial_analysis s w roads prop d)) k "Pre-Development" =
        pivotLength (table_to_dataframe_roads
          (run_spatial_analysis s w roads [] d)) k "Pre-Development" ∧
      pivotLength (table_to_dataframe_roads
          (run_spatial_analysis s w roads prop d)) k "Proposed" =
        pivotLength (table_to_dataframe_roads
          (run_spatial_analysis s w [] prop d)) k "Proposed") := by
  constructor
  · intro t fn fv row hrow
    obtain ⟨r, _, rfl⟩ := List.mem_map.mp hrow
    simp [add_constant_field]
  · intro s w roads prop d k
    have hsplit : table_to_dataframe_roads (run_spatial_analysis s w roads prop d) =
        table_to_dataframe_roads (run_spatial_analysis s w roads [] d) ++
          table_to_dataframe_roads (run_spatial_analysis s w [] prop d) := by
      rw [run_spatial_analysis_append]
      simp [table_to_dataframe_roads]
    constructor
    · have hzero : pivotLength (table_to_dataframe_roads
          (run_spatial_analysis s w [] prop d)) k "Pre-Development" = 0 := by
        refine pivotLength_eq_zero_of_road_type ?_ k
        intro rec hrec
        obtain ⟨f, hf, rfl⟩ := List.mem_map.mp hrec
        rw [show (RoadRecord.mk f.key f.road_type (f.geom.length : Rat)).road_type
            = f.road_type from rfl, road_type_of_mem_proposed hf]
        decide
      rw [hsplit, pivotLength_append, hzero, add_zero]
    · have hzero : pivotLength (table_to_dataframe_roads
          (run_spatial_analysis s w roads [] d)) k "Proposed" = 0 := by
        refine pivotLength_eq_zero_of_road_type ?_ k
        intro rec hrec
        obtain ⟨f, hf, rfl⟩ := List.mem_map.mp hrec
        rw [show (RoadRecord.mk f.key f.road_type (f.geom.length : Rat)).road_type
            = f.road_type from rfl, road_type_of_mem_original hf]
        decide
      rw [hsplit, pivotLength_append, hzero, zero_add]

/-- Witness for `tagging_separates_networks` at a concrete input. -/
theorem tagging_separates_networks_witness :
    (Row.mk [("ROAD_TYPE", "Pre-Development")] ∈
        add_constant_field [Row.mk []] "ROAD_TYPE" "Pre-Development" ∧
      ("ROAD_TYPE", "Pre-Development") ∈
        (Row.mk [("ROAD_TYPE", "Pre-Development")]).fields) ∧
    pivotLength (table_to_dataframe_roads
        (run_spatial_analysis wStreams wWatersheds [wRoad0] [wRoadFar] 1))
        "W" "Pre-Development" =
      pivotLength (table_to_dataframe_roads
        (run_spatial_analysis wStreams wWatersheds [wRoad0] [] 1))
        "W" "Pre-Development" := by
  have hm : Row.mk [("ROAD_TYPE", "Pre-Development")] ∈
      add_constant_field [Row.mk []] "ROAD_TYPE" "Pre-Development" := by
    decide
  exact ⟨⟨hm, tagging_separates_networks.1 _ _ _ _ hm⟩,
    (tagging_separates_networks.2 wStreams wWatersheds [wRoad0] [wRoadFar]
      1 "W").1⟩

/-! ## Facts about the `run` trace -/

/-- Claim C4: whenever `run` completes, its trace contains the export
of the `Results` table into `results.gdb` with the watershed key field
followed by the six DOUBLE result fields in order, and the emission of
`result.pdf` and `result.mxd` in the output folder. -/
theorem run_emits_results_and_report (out_folder : String)
    (key_field_def : String × String) (gdbExists : Bool) :
    RunEvent.exportResultsTable (out_folder ++ "/results.gdb") "Results"
        (key_field_def ::
          [("watershed_area", "DOUBLE"),
           ("proposed_road_length", "DOUBLE"),
           ("existing_road_length", "DOUBLE"),
           ("total_road_length", "DOUBLE"),
           ("original_road_density", "DOUBLE"),
           ("future_road_density", "DOUBLE")]) ∈
      run_trace out_folder key_field_def gdbExists ∧
    RunEvent.generatePdfMxd (out_folder ++ "/result.pdf")
        (out_folder ++ "/result.mxd") ∈
      run_trace out_folder key_field_def gdbExists := by
  cases gdbExists <;>
    simp [run_trace, create_result_table_fields]

/-- Claim C6: the pipeline stages of `run` — spatial analysis, summary
analysis, table export, report generation — occur in exactly this
order, each exactly once, regardless of whether the output geodatabase
already existed. -/
theorem run_pipeline_order (out_folder : String)
    (key_field_def : String × String) (gdbExists : Bool) :
    (run_trace out_folder key_field_def gdbExists).filterMap stageOf =
      [Stage.spatial, Stage.summary, Stage.export, Stage.report] := by
  cases gdbExists <;> rfl

/-! ## Facts about `get_map_scale` -/

theorem one_le_decimalDigits (n : Nat) : 1 ≤ decimalDigits n := by
  unfold decimalDigits
  split <;> omega

theorem scaleround_none {n : Nat} (hn : 10 ≤ n) : scaleround n = none := by
  obtain ⟨m, rfl⟩ : ∃ m, n = m + 10 := ⟨n - 10, by omega⟩
  rfl

theorem scaleround_pos_of_le_nine {n : Nat} (h1 : 1 ≤ n) (h9 : n ≤ 9) :
    ∃ r : Int, scaleround n = some r ∧ 0 < r := by
  interval_cases n <;> exact ⟨_, rfl, by norm_num⟩

/-- Claim C9: for a positive scale whose integer part has at most 9
decimal digits, `get_map_scale` returns the smallest multiple of the
rounding unit `scaleround` (selected by the digit count) that is at
least the input scale — in particular the result is never below the
input — and for an integer part with 10 or more digits the dictionary
lookup fails (`KeyError`, modelled as `none`). -/
theorem get_map_scale_correct (q : Rat) (hq : 0 < q) :
    (decimalDigits (⌊q⌋).toNat ≤ 9 →
      ∃ r : Int, scaleround (decimalDigits (⌊q⌋).toNat) = some r ∧ 0 < r ∧
        get_map_scale q = some (⌈q / (r : Rat)⌉ * r) ∧
        q ≤ ((⌈q / (r : Rat)⌉ * r : Int) : Rat) ∧
        ∀ k : Int, q ≤ (k : Rat) * (r : Rat) → ⌈q / (r : Rat)⌉ * r ≤ k * r) ∧
    (10 ≤ decimalDigits (⌊q⌋).toNat → get_map_scale q = none) := by
  constructor
  · intro h9
    obtain ⟨r, hr, hrpos⟩ :=
      scaleround_pos_of_le_nine (one_le_decimalDigits (⌊q⌋).toNat) h9
    have hrq : (0 : Rat) < (r : Rat) := by exact_mod_cast hrpos
    refine ⟨r, hr, hrpos, ?_, ?_, ?_⟩
    · unfold get_map_scale
      rw [hr]
    · push_cast
      rw [← div_le_iff₀ hrq]
      exact Int.le_ceil _
    · intro k hk
      have hdiv : q / (r : Rat) ≤ (k : Rat) := (div_le_iff₀ hrq).mpr hk
      have hceil : ⌈q / (r : Rat)⌉ ≤ k := Int.ceil_le.mpr hdiv
      exact mul_le_mul_of_nonneg_right hceil hrpos.le
  · intro h10
    unfold get_map_scale
    rw [scaleround_none h10]

/-- Witness for `get_map_scale_correct` at a concrete input. -/
theorem get_map_scale_correct_witness :
    0 < (30000 : Rat) ∧ get_map_scale 30000 = some 30000 := by
  have hq : (0 : Rat) < 30000 := by norm_num
  have hfl : ⌊(30000 : Rat)⌋ = 30000 := by norm_num
  have hfloor : (⌊(30000 : Rat)⌋).toNat = 30000 := by rw [hfl]; rfl
  have d4 : decimalDigits 3 = 1 := by
    rw [decimalDigits.eq_def]; norm_num
  have d3 : decimalDigits 30 = 2 := by
    rw [decimalDigits.eq_def]; norm_num [d4]
  have d2 : decimalDigits 300 = 3 := by
    rw [decimalDigits.eq_def]; norm_num [d3]
  have d1 : decimalDigits 3000 = 4 := by
    rw [decimalDigits.eq_def]; norm_num [d2]
  have hdig : decimalDigits 30000 = 5 := by
    rw [decimalDigits.eq_def]; norm_num [d1]
  have h9 : decimalDigits (⌊(30000 : Rat)⌋).toNat ≤ 9 := by
    rw [hfloor, hdig]; norm_num
  obtain ⟨r, hr, hrpos, hg, hle, hmin⟩ :=
    (get_map_scale_correct 30000 hq).1 h9
  rw [hfloor, hdig] at hr
  have h25 : scaleround 5 = some 2500 := rfl
  rw [h25] at hr
  have hr2500 : r = 2500 := (Option.some.inj hr).symm
  subst hr2500
  have hdivq : (30000 : Rat) / (2500 : Rat) = ((12 : Int) : Rat) := by
    norm_num
  have hceil : ⌈(30000 : Rat) / ((2500 : Int) : Rat)⌉ = 12 := by
    push_cast
    rw [hdivq, Int.ceil_intCast]
  refine ⟨hq, ?_⟩
  rw [hg, hceil]
  norm_num

end RoadDensity
